import Mathlib

/-!
Shallow embedding of the request pipeline of the journal-backend repository
(src/index.cjs, src/unnamed/part_000, src/unnamed/part_001): the connection
lease middleware, the verifyJwt authentication gate, the register/login
handlers, the entry_table CRUD handlers, and the POST /car insert binding.
Each definition is translated from the JavaScript source; the bcrypt
credential hasher is an external library and is modelled from the spec.
-/

namespace JournalBackend

/-- A JSON-ish value as carried by request bodies and query parameters. -/
inductive Value
  | str (s : String)
  | num (n : Int)
  | vnull
deriving DecidableEq, Repr

/- ### Connection lease middleware (src/index.cjs lines 33-55) -/

/-- Outcome of the downstream chain invoked by the lease middleware's
await next(): the downstream either resolves normally or throws. A
rejection by the authentication gate answers the request with res.status
and resolves normally, so it is the ok outcome here. -/
inductive NextOutcome
  | ok
  | threw
deriving DecidableEq, Repr

/-- Per-request connection state tracked by the middleware: whether req.db
was assigned, and how many times req.db.release() has run. -/
structure ReqState where
  dbAcquired : Bool
  releases : Nat
deriving DecidableEq, Repr

/-- Result of running a middleware body: it either completes normally or
propagates a thrown error, in both cases with the request state it left. -/
inductive StepResult
  | normal (s : ReqState)
  | error (s : ReqState)
deriving DecidableEq, Repr

/-- The state an execution finished in, whether it completed or threw. -/
def StepResult.state : StepResult → ReqState
  | .normal s => s
  | .error s => s

/-- req.db.release(): returns the connection to the pool. mysql2 release
on a pooled connection does not throw, so it is a plain state update. -/
def releaseDb (s : ReqState) : ReqState :=
  { s with releases := s.releases + 1 }

/-- The try-block of the lease middleware (src/index.cjs lines 34-47):
acquire a connection from the pool (may throw), run the two SET
session-configuration queries (may throw), await next(), and on normal
downstream completion call req.db.release(). acquireOk models whether
pool.getConnection resolves, configOk whether the SET queries resolve. -/
def leaseTryBlock (acquireOk configOk : Bool) (next : NextOutcome)
    (s : ReqState) : StepResult :=
  if !acquireOk then
    .error s
  else
    let s1 := { s with dbAcquired := true }
    if !configOk then
      .error s1
    else
      match next with
      | .threw => .error s1
      | .ok => .normal (releaseDb s1)

/-- The whole lease middleware (src/index.cjs lines 33-55): runs the
try-block; the catch-block releases the connection when req.db was set
(if (req.db) req.db.release()) and rethrows the error. -/
def leaseMiddleware (acquireOk configOk : Bool) (next : NextOutcome)
    (s : ReqState) : StepResult :=
  match leaseTryBlock acquireOk configOk next s with
  | .normal s1 => .normal s1
  | .error s1 => .error (if s1.dbAcquired then releaseDb s1 else s1)

/-- The request state before the middleware runs: no connection, no
releases. -/
def initialReqState : ReqState :=
  { dbAcquired := false, releases := 0 }

/- ### The verifyJwt authentication gate (src/index.cjs lines 154-183) -/

/-- The claims payload recovered from a verified token: the identity's
numeric id and username (the payload signed at login). -/
structure Claims where
  userId : Int
  username : String
deriving DecidableEq, Repr

/-- A JavaScript error as discriminated by the gate's catch-block, which
branches on err.name (TokenExpiredError, JsonWebTokenError, other). -/
structure JsError where
  name : String
deriving DecidableEq, Repr

/-- What the gate does with a request: answer it with a status code and
error message without calling next(), or set req.user to the decoded
claims and call next() so the protected handler runs. -/
inductive GateResult
  | reject (status : Nat) (msg : String)
  | proceed (user : Claims)
deriving DecidableEq, Repr

/-- JavaScript String.prototype.split on a single-space separator:
splits at every space character, keeping empty segments. -/
def splitSpacesAux : List Char → List Char → List String
  | [], cur => [String.mk cur.reverse]
  | c :: rest, cur =>
    if c = ' ' then String.mk cur.reverse :: splitSpacesAux rest []
    else splitSpacesAux rest (c :: cur)

/-- authHeader.split(' ') from src/index.cjs line 162. -/
def splitSpaces (s : String) : List String :=
  splitSpacesAux s.data []

/-- The destructuring header parse of the gate (src/index.cjs lines
162-166): const [scheme, jwtToken] = authHeader.split(' '); an absent
array element destructures to undefined, which like the empty string is
falsy, so both are the default "". Returns the credential when the check
if (!scheme || !jwtToken || scheme !== 'Bearer') passes. -/
def parseAuthParts (parts : List String) : Option String :=
  let scheme := parts.getD 0 ""
  let jwtToken := parts.getD 1 ""
  if scheme = "" ∨ jwtToken = "" ∨ scheme ≠ "Bearer" then none
  else some jwtToken

/-- The verifyJwt middleware (src/index.cjs lines 154-183). verify models
jwt.verify(token, JWT_KEY): it returns the decoded claims or throws a
JsError. A missing header (undefined) and an empty header string are both
falsy in if (!authHeader). The catch-block maps err.name
TokenExpiredError to 401 JWT expired, JsonWebTokenError to 401 Invalid
JWT token, and anything else to 500. -/
def verifyJwt (verify : String → Except JsError Claims)
    (authHeader : Option String) : GateResult :=
  match authHeader with
  | none => .reject 401 "Invalid authorization, no authorization header"
  | some h =>
    if h = "" then
      .reject 401 "Invalid authorization, no authorization header"
    else
      match parseAuthParts (splitSpaces h) with
      | none => .reject 401 "Invalid authorization, invalid authorization scheme"
      | some jwtToken =>
        match verify jwtToken with
        | .ok decoded => .proceed decoded
        | .error err =>
          if err.name = "TokenExpiredError" then
            .reject 401 "JWT expired"
          else if err.name = "JsonWebTokenError" then
            .reject 401 "Invalid JWT token"
          else
            .reject 500 "Internal Server Error"

/- ### Entry rows and the protected entry_table handlers
   (src/unnamed/part_000 lines 162-243) -/

/-- A row of entry_table with the columns the handlers touch. -/
structure Entry where
  entryId : Nat
  userId : Int
  title : String
  content : String
  mood : String
  deletedFlag : Nat
deriving DecidableEq, Repr

/-- Running the gate and then a protected handler over the store: the
handler (a database write) runs only when the gate proceeds; a rejected
request leaves the store untouched. -/
def runProtected (verify : String → Except JsError Claims)
    (authHeader : Option String) (handler : Claims → List Entry → List Entry)
    (db : List Entry) : List Entry :=
  match verifyJwt verify authHeader with
  | .proceed user => handler user db
  | .reject _ _ => db

/-- POST /entry_table (src/unnamed/part_000 lines 162-193): inserts a row
whose UserID named parameter is req.user.userId, the id from the verified
claims; insertId is the id the store generates for the new row. -/
def postEntry (user : Claims) (insertId : Nat)
    (title content mood : String) (db : List Entry) : List Entry :=
  db ++ [⟨insertId, user.userId, title, content, mood, 0⟩]

/-- PUT /entry_table (src/unnamed/part_000 lines 195-216): runs
UPDATE entry_table SET Title, Content, Mood WHERE EntryID = :id with id,
title, content, mood all taken from req.body; req.user is not consulted
and the query has no UserID condition. -/
def putEntry (id : Nat) (title content mood : String)
    (db : List Entry) : List Entry :=
  db.map fun e =>
    if e.entryId = id then { e with title := title, content := content, mood := mood }
    else e

/-- GET /entry_table (src/unnamed/part_000 lines 219-231): SELECT * FROM
entry_table WHERE UserID = :userId AND DeletedFlag = 0 with userId taken
from req.user, the verified claims. -/
def getEntries (user : Claims) (db : List Entry) : List Entry :=
  db.filter fun e => e.userId == user.userId && e.deletedFlag == 0

/-- DELETE /entry_table/:id (src/unnamed/part_000 lines 234-243): runs
UPDATE entry_table SET DeletedFlag = 1 WHERE EntryID = :entryId with
entryId taken from the URL parameter; req.user is not consulted and the
query has no UserID condition. -/
def deleteEntry (entryId : Nat) (db : List Entry) : List Entry :=
  db.map fun e =>
    if e.entryId = entryId then { e with deletedFlag := 1 }
    else e

/- ### Register and login handlers (src/index.cjs lines 98-151) -/

/-- Property lookup on a JavaScript object literal represented as the list
of its key-value pairs in source order: a later duplicate key overwrites
an earlier one, so the last binding wins. -/
def jsLookup (obj : List (String × Value)) (k : String) : Option Value :=
  (obj.reverse.find? fun kv => kv.1 == k).map (·.2)

/-- The payload signed into the registration token (src/index.cjs lines
109-112): the object literal with UserID set to user.insertId followed by
the spread of the whole request body, field for field. -/
def registerTokenPayload (insertId : Int) (body : List (String × Value)) :
    List (String × Value) :=
  ("UserID", Value.num insertId) :: body

/-- A row of user_table as read back by the login handler. -/
structure UserRow where
  UserID : Int
  Username : String
  Password : String
deriving DecidableEq, Repr

/-- The response of the login handler, by exit branch. -/
inductive LoginResult
  | notFound
  | wrongPassword
  | token (payload : Int × String)
deriving DecidableEq, Repr

/-- The HTTP status each login branch answers with (src/index.cjs lines
127, 141 res.json defaults to 200, and 144). -/
def LoginResult.status : LoginResult → Nat
  | .notFound => 404
  | .wrongPassword => 401
  | .token _ => 200

/-- POST /login (src/index.cjs lines 121-151). lookup models the SELECT *
FROM user_table WHERE Username = :username returning at most one row;
compare models bcrypt.compare of the entered password against the stored
digest. No row answers 404 Username not found; a row whose digest fails
comparison answers 401 Password is incorrect; a match signs a token whose
payload is the row's UserID and Username. -/
def login (compare : String → String → Bool)
    (lookup : String → Option UserRow)
    (username userEnteredPassword : String) : LoginResult :=
  match lookup username with
  | none => .notFound
  | some user =>
    if compare userEnteredPassword user.Password then
      .token (user.UserID, user.Username)
    else
      .wrongPassword

/- ### POST /car insert binding (src/index.cjs lines 69-95) -/

/-- The named placeholders appearing in the INSERT INTO car statement, in
source order (src/index.cjs lines 77-79). -/
def carInsertPlaceholders : List String :=
  ["makeId", "model", "user_id", "deleted_flag"]

/-- The parameter object passed to req.db.query alongside that statement
(src/index.cjs lines 80-85): the shorthand keys of the destructured body
fields. -/
def carInsertParams (make_id model user_id deleted_flag : Value) :
    List (String × Value) :=
  [("make_id", make_id), ("model", model), ("user_id", user_id),
   ("deleted_flag", deleted_flag)]

/-- What value a named placeholder receives from a parameter object:
the value stored under the matching key, if any. -/
def bindPlaceholder (params : List (String × Value)) (name : String) :
    Option Value :=
  (params.find? fun kv => kv.1 == name).map (·.2)

/- ### Credential hasher, modelled from the spec -/

/-- Modelled from the spec: the Credential Hasher of spec section 4.1.
Its implementation is the bcrypt library, which is not part of this
repository; src/index.cjs only calls bcrypt.hash (line 102) and
bcrypt.compare (line 131). A digest self-describes its cost and salt and
carries a tag derived one-way from the salt and the plaintext. -/
structure Digest where
  cost : Nat
  salt : Nat
  tag : String
deriving DecidableEq, Repr

/-- Modelled from the spec: the salted one-way derivation inside the
hasher; the model keys the tag on the digest's own salt so that a digest
self-describes everything verification needs. -/
def hashTag (salt : Nat) (plaintext : String) : String :=
  toString salt ++ "$" ++ plaintext

/-- Modelled from the spec: hash(plaintext) with an explicitly drawn salt
and cost factor; spec section 4.1 fixes the cost at work-factor 10 at the
call site but requires the digest to self-describe it. -/
def bcryptHash (cost salt : Nat) (plaintext : String) : Digest :=
  ⟨cost, salt, hashTag salt plaintext⟩

/-- Modelled from the spec: verify(plaintext, digest). A malformed or
missing digest (none after parsing) is a verification failure, not a
crash; a well-formed digest verifies exactly when its tag matches the
tag recomputed from the plaintext under the digest's salt. Returning
Bool totally models that verification never throws. -/
def bcryptVerify (plaintext : String) (digest : Option Digest) : Bool :=
  match digest with
  | none => false
  | some d => hashTag d.salt plaintext == d.tag

/- ### Route registration order (src/index.cjs) -/

/-- An HTTP method of a registered route. -/
inductive Method
  | get
  | post
  | put
  | delete
deriving DecidableEq, Repr

/-- A route as registered on the app: method and path pattern. -/
structure Route where
  method : Method
  path : String
deriving DecidableEq, Repr

/-- The routes src/index.cjs registers before the verifyJwt gate, in
registration order (lines 57, 62, 69, 98, 121): the three /car routes,
register and login. -/
def routesBeforeGate : List Route :=
  [⟨.delete, "/car/:id"⟩, ⟨.get, "/car"⟩, ⟨.post, "/car"⟩,
   ⟨.post, "/register"⟩, ⟨.post, "/login"⟩]

/-- The routes src/index.cjs registers after the verifyJwt gate: none;
the file only leaves the comment slot for protected endpoints (line
185). -/
def routesAfterGate : List Route :=
  []

/- ## Theorems -/

/-- Inversion of the gate: the only way verifyJwt calls next() is that a
header was present, the Bearer parse produced a credential, and jwt.verify
returned exactly the claims that got attached as req.user. -/
theorem verifyJwt_proceed_inv (verify : String → Except JsError Claims)
    (authHeader : Option String) (user : Claims)
    (hp : verifyJwt verify authHeader = .proceed user) :
    ∃ hdr tok, authHeader = some hdr ∧
      parseAuthParts (splitSpaces hdr) = some tok ∧ verify tok = .ok user := by
  cases authHeader with
  | none => simp [verifyJwt] at hp
  | some hdr =>
    simp only [verifyJwt] at hp
    by_cases h0 : hdr = ""
    · rw [if_pos h0] at hp; exact absurd hp (by simp)
    · rw [if_neg h0] at hp
      cases hparse : parseAuthParts (splitSpaces hdr) with
      | none => rw [hparse] at hp; exact absurd hp (by simp)
      | some tok =>
        rw [hparse] at hp
        dsimp only at hp
        cases hv : verify tok with
        | error e =>
          rw [hv] at hp
          dsimp only at hp
          by_cases h1 : e.name = "TokenExpiredError"
          · rw [if_pos h1] at hp; exact absurd hp (by simp)
          · rw [if_neg h1] at hp
            by_cases h2 : e.name = "JsonWebTokenError"
            · rw [if_pos h2] at hp; exact absurd hp (by simp)
            · rw [if_neg h2] at hp; exact absurd hp (by simp)
        | ok decoded =>
          rw [hv] at hp
          dsimp only at hp
          simp only [GateResult.proceed.injEq] at hp
          subst hp
          exact ⟨hdr, tok, rfl, hparse, hv⟩

/-- Claim C1: whenever the lease middleware successfully acquires a pooled
connection, the connection is released exactly once before the request
completes, on every exit path: normal downstream completion, a downstream
handler throwing, and a failure of the session-configuration queries; a
rejection by the authentication gate answers the response and resolves
next() normally and so is the normal-completion path. The release count is
one, never zero (leak) and never two (double release). -/
theorem lease_released_exactly_once (configOk : Bool) (next : NextOutcome) :
    (leaseMiddleware true configOk next initialReqState).state.releases = 1 := by
  cases configOk <;> cases next <;> rfl

/-- Claim C2: a protected handler runs, and can write to the store, only
when the gate verified the presented token and attached exactly the
verified claims: a request with no Authorization header leaves the store
untouched, a request whose token fails verification leaves the store
untouched, and whenever the gate proceeds there are a header and a
credential in it whose verification returned precisely the attached
claims. -/
theorem gate_guards_protected_handlers :
    (∀ (verify : String → Except JsError Claims)
       (handler : Claims → List Entry → List Entry) (db : List Entry),
        runProtected verify none handler db = db) ∧
    (∀ (verify : String → Except JsError Claims) (hdr : String)
       (handler : Claims → List Entry → List Entry) (db : List Entry),
        (∀ t, ∃ e, verify t = .error e) →
        runProtected verify (some hdr) handler db = db) ∧
    (∀ (verify : String → Except JsError Claims) (authHeader : Option String)
       (user : Claims), verifyJwt verify authHeader = .proceed user →
        ∃ hdr tok, authHeader = some hdr ∧
          parseAuthParts (splitSpaces hdr) = some tok ∧ verify tok = .ok user) := by
  refine ⟨fun verify handler db => rfl, ?_, verifyJwt_proceed_inv⟩
  intro verify hdr handler db hfail
  unfold runProtected
  cases hg : verifyJwt verify (some hdr) with
  | reject s m => rfl
  | proceed u =>
    exfalso
    obtain ⟨h, tok, -, -, hok⟩ := verifyJwt_proceed_inv verify (some hdr) u hg
    obtain ⟨e, he⟩ := hfail tok
    rw [hok] at he
    exact absurd he (by simp)

/-- Witness for claim C2 at concrete inputs: a headerless request and a
request whose token always fails verification leave the store unchanged,
and a gate run that proceeds did verify the credential of the presented
header to the attached claims. -/
theorem gate_guards_protected_handlers_witness :
    runProtected (fun t => .ok ⟨7, t⟩) none
        (fun u db => db ++ [⟨9, u.userId, "t", "c", "m", 0⟩]) [] = [] ∧
    runProtected (fun _ => .error ⟨"JsonWebTokenError"⟩) (some "Bearer abc")
        (fun u db => db ++ [⟨9, u.userId, "t", "c", "m", 0⟩]) [] = [] ∧
    ∃ hdr tok, (some "Bearer abc" : Option String) = some hdr ∧
      parseAuthParts (splitSpaces hdr) = some tok ∧
      (fun t => (Except.ok ⟨7, t⟩ : Except JsError Claims)) tok = .ok ⟨7, "abc"⟩ :=
  ⟨gate_guards_protected_handlers.1 _ _ _,
   gate_guards_protected_handlers.2.1 _ "Bearer abc" _ []
     (fun t => ⟨⟨"JsonWebTokenError"⟩, rfl⟩),
   gate_guards_protected_handlers.2.2 _ (some "Bearer abc") ⟨7, "abc"⟩ (by decide)⟩

/-- Claim C3 (the code contradicts it): the PUT /entry_table and DELETE
/entry_table/:id handlers filter on EntryID alone and never consult the
authenticated identity, so a store holding a single entry owned by user 2
is rewritten, and soft-deleted, by requests that carry no owner scoping at
all: evaluating the handlers at that input changes user 2's row. -/
theorem entry_write_ignores_owner :
    putEntry 1 "x" "y" "z" [⟨1, 2, "t", "c", "m", 0⟩] = [⟨1, 2, "x", "y", "z", 0⟩] ∧
    deleteEntry 1 [⟨1, 2, "t", "c", "m", 0⟩] = [⟨1, 2, "t", "c", "m", 1⟩] := by
  decide

/-- Counterexample to claim C4 as stated: POST /car is registered before
the verifyJwt gate, and it is neither register nor login, so register and
login are not the only routes reachable without a bearer token. -/
theorem public_routes_not_only_register_login :
    (⟨.post, "/car"⟩ : Route) ∈ routesBeforeGate ∧
    (⟨.post, "/car"⟩ : Route) ∉ [(⟨.post, "/register"⟩ : Route), ⟨.post, "/login"⟩] := by
  decide

/-- Claim C4 as amended: the routes registered before the verifyJwt gate,
and therefore reachable without any bearer token, are the three /car
routes together with register and login; src/index.cjs registers no route
after the gate, and the gate rejects any request without an Authorization
header, so every route registered after it requires the header. -/
theorem gate_public_route_boundary :
    routesBeforeGate = [⟨.delete, "/car/:id"⟩, ⟨.get, "/car"⟩, ⟨.post, "/car"⟩,
      ⟨.post, "/register"⟩, ⟨.post, "/login"⟩] ∧
    routesAfterGate = [] ∧
    (∀ verify : String → Except JsError Claims,
      verifyJwt verify none = .reject 401 "Invalid authorization, no authorization header") :=
  ⟨rfl, rfl, fun _ => rfl⟩

/-- Claim C5: the gate's catch block classifies a verification failure by
its error name into exactly three responses: TokenExpiredError answers
401 JWT expired, JsonWebTokenError answers 401 Invalid JWT token, and any
other failure answers 500 Internal Server Error rather than an
unauthenticated error. -/
theorem gate_error_taxonomy (e : JsError) :
    (e.name = "TokenExpiredError" →
      verifyJwt (fun _ => .error e) (some "Bearer sometoken") = .reject 401 "JWT expired") ∧
    (e.name = "JsonWebTokenError" →
      verifyJwt (fun _ => .error e) (some "Bearer sometoken") = .reject 401 "Invalid JWT token") ∧
    (e.name ≠ "TokenExpiredError" → e.name ≠ "JsonWebTokenError" →
      verifyJwt (fun _ => .error e) (some "Bearer sometoken") = .reject 500 "Internal Server Error") := by
  have hstep : verifyJwt (fun _ => .error e) (some "Bearer sometoken") =
      (if e.name = "TokenExpiredError" then .reject 401 "JWT expired"
       else if e.name = "JsonWebTokenError" then .reject 401 "Invalid JWT token"
       else .reject 500 "Internal Server Error") := rfl
  refine ⟨fun h1 => ?_, fun h2 => ?_, fun h1 h2 => ?_⟩
  · rw [hstep, if_pos h1]
  · rw [hstep]
    by_cases h1 : e.name = "TokenExpiredError"
    · rw [h1] at h2; exact absurd h2 (by decide)
    · rw [if_neg h1, if_pos h2]
  · rw [hstep, if_neg h1, if_neg h2]

/-- Witness for claim C5 at the three concrete error names thrown by the
token library: expired, invalid, and an unclassified one. -/
theorem gate_error_taxonomy_witness :
    verifyJwt (fun _ => .error ⟨"TokenExpiredError"⟩) (some "Bearer sometoken") =
      .reject 401 "JWT expired" ∧
    verifyJwt (fun _ => .error ⟨"JsonWebTokenError"⟩) (some "Bearer sometoken") =
      .reject 401 "Invalid JWT token" ∧
    verifyJwt (fun _ => .error ⟨"NotBeforeError"⟩) (some "Bearer sometoken") =
      .reject 500 "Internal Server Error" :=
  ⟨(gate_error_taxonomy ⟨"TokenExpiredError"⟩).1 rfl,
   (gate_error_taxonomy ⟨"JsonWebTokenError"⟩).2.1 rfl,
   (gate_error_taxonomy ⟨"NotBeforeError"⟩).2.2 (by decide) (by decide)⟩

/-- Claim C6: login answers 404 not-found when no user row matches the
username; answers 401 wrong-password, not not-found, when a row exists
but the entered password fails comparison against its stored digest; and
on a match signs a token whose payload is exactly the row's UserID and
Username. -/
theorem login_outcomes (compare : String → String → Bool)
    (lookup : String → Option UserRow) (username pw : String) :
    (lookup username = none →
      login compare lookup username pw = .notFound ∧
      (login compare lookup username pw).status = 404) ∧
    (∀ u, lookup username = some u → compare pw u.Password = false →
      login compare lookup username pw = .wrongPassword ∧
      (login compare lookup username pw).status = 401) ∧
    (∀ u, lookup username = some u → compare pw u.Password = true →
      login compare lookup username pw = .token (u.UserID, u.Username)) := by
  refine ⟨fun h => ?_, fun u hu hc => ?_, fun u hu hc => ?_⟩
  · simp [login, h, LoginResult.status]
  · simp [login, hu, hc, LoginResult.status]
  · simp [login, hu, hc]

/-- Witness for claim C6 at concrete stores: an absent row, a row whose
digest does not match, and a row whose digest matches. -/
theorem login_outcomes_witness :
    (login (fun p d => p == d) (fun _ => none) "alice" "pw" = .notFound ∧
      (login (fun p d => p == d) (fun _ => none) "alice" "pw").status = 404) ∧
    (login (fun p d => p == d) (fun _ => some ⟨1, "alice", "digest"⟩) "alice" "pw" = .wrongPassword ∧
      (login (fun p d => p == d) (fun _ => some ⟨1, "alice", "digest"⟩) "alice" "pw").status = 401) ∧
    login (fun p d => p == d) (fun _ => some ⟨1, "alice", "pw"⟩) "alice" "pw" = .token (1, "alice") :=
  ⟨(login_outcomes _ _ "alice" "pw").1 rfl,
   (login_outcomes _ _ "alice" "pw").2.1 ⟨1, "alice", "digest"⟩ rfl (by decide),
   (login_outcomes _ _ "alice" "pw").2.2 ⟨1, "alice", "pw"⟩ rfl (by decide)⟩

/-- Counterexample to claim C7 as stated: an Authorization header with an
extra space-delimited segment after the credential is not rejected; the
destructuring parse keeps the first two segments, so the gate verifies
the credential abc and proceeds. -/
theorem extra_segment_header_not_rejected :
    verifyJwt (fun t => .ok ⟨0, t⟩) (some "Bearer abc def") = .proceed ⟨0, "abc"⟩ := by
  decide

/-- Claim C7 as amended: the gate's parse accepts exactly the headers
whose first space-delimited segment is Bearer and whose second segment is
a nonempty credential, ignoring any further segments; and a nonempty
header the parse refuses is rejected by the gate with the scheme-mismatch
error. -/
theorem auth_header_shape :
    (∀ (parts : List String) (tok : String),
      parseAuthParts parts = some tok ↔
        tok ≠ "" ∧ ∃ extra, parts = "Bearer" :: tok :: extra) ∧
    (∀ (verify : String → Except JsError Claims) (hdr : String), hdr ≠ "" →
      parseAuthParts (splitSpaces hdr) = none →
      verifyJwt verify (some hdr) =
        .reject 401 "Invalid authorization, invalid authorization scheme") := by
  constructor
  · intro parts tok
    cases parts with
    | nil =>
      constructor
      · intro h; simp [parseAuthParts] at h
      · rintro ⟨-, extra, heq⟩; exact absurd heq (by simp)
    | cons x rest =>
      cases rest with
      | nil =>
        constructor
        · intro h
          have hnone : parseAuthParts [x] = none := by
            simp [parseAuthParts]
          rw [hnone] at h
          exact absurd h (by simp)
        · rintro ⟨-, extra, heq⟩; exact absurd heq (by simp)
      | cons y rest2 =>
        show (if x = "" ∨ y = "" ∨ x ≠ "Bearer" then none else some y) = some tok ↔ _
        by_cases hx : x = "Bearer"
        · subst hx
          by_cases hy : y = ""
          · subst hy
            rw [if_pos (Or.inr (Or.inl rfl))]
            constructor
            · intro h; exact absurd h (by simp)
            · rintro ⟨hne, extra, heq⟩
              injection heq with h1 h2
              injection h2 with h2 h3
              exact absurd h2.symm hne
          · have hcond : ¬("Bearer" = "" ∨ y = "" ∨ "Bearer" ≠ "Bearer") := by
              push_neg
              refine ⟨by decide, hy, rfl⟩
            rw [if_neg hcond]
            constructor
            · intro h
              injection h with h
              subst h
              exact ⟨hy, rest2, rfl⟩
            · rintro ⟨hne, extra, heq⟩
              injection heq with h1 h2
              injection h2 with h2 h3
              rw [h2]
        · rw [if_pos (Or.inr (Or.inr hx))]
          constructor
          · intro h; exact absurd h (by simp)
          · rintro ⟨hne, extra, heq⟩
            injection heq with h1 h2
            exact absurd h1 hx
  · intro verify hdr h0 hparse
    simp only [verifyJwt]
    rw [if_neg h0, hparse]

/-- Witness for claim C7 as amended: a header with the wrong scheme is
rejected with the scheme-mismatch error. -/
theorem auth_header_shape_witness :
    verifyJwt (fun t => (.ok ⟨0, t⟩ : Except JsError Claims)) (some "Basic abc") =
      .reject 401 "Invalid authorization, invalid authorization scheme" :=
  auth_header_shape.2 _ "Basic abc" (by decide) (by decide)

/-- Claim C8: verifying a password against the digest produced by hashing
it succeeds; verifying any other password against that digest returns
false rather than throwing; and a malformed or missing digest is a
verification failure, not a crash. -/
theorem hash_verify_roundtrip (cost salt : Nat) (p q : String) :
    bcryptVerify p (some (bcryptHash cost salt p)) = true ∧
    (q ≠ p → bcryptVerify q (some (bcryptHash cost salt p)) = false) ∧
    bcryptVerify q none = false := by
  refine ⟨by simp [bcryptVerify, bcryptHash], fun hne => ?_, rfl⟩
  simp only [bcryptVerify, bcryptHash]
  rw [beq_eq_false_iff_ne]
  intro heq
  apply hne
  have hd := congrArg String.data heq
  simp only [hashTag, String.data_append, List.append_assoc] at hd
  exact String.ext (List.append_cancel_left (List.append_cancel_left hd))

/-- Witness for claim C8 at a concrete password pair and digest. -/
theorem hash_verify_roundtrip_witness :
    bcryptVerify "pw" (some (bcryptHash 10 3 "pw")) = true ∧
    bcryptVerify "other" (some (bcryptHash 10 3 "pw")) = false ∧
    bcryptVerify "other" none = false :=
  ⟨(hash_verify_roundtrip 10 3 "pw" "other").1,
   (hash_verify_roundtrip 10 3 "pw" "other").2.1 (by decide),
   (hash_verify_roundtrip 10 3 "pw" "other").2.2⟩

/-- Claim C9: the registration token payload spreads the whole request
body over the UserID entry, so every body field, the plaintext password
included, appears verbatim among the signed claims, and the insert id
fills UserID whenever the body does not itself override that key. -/
theorem register_token_contains_whole_body (insertId : Int)
    (body : List (String × Value)) (k : String) (v : Value) :
    (jsLookup body k = some v →
      jsLookup (registerTokenPayload insertId body) k = some v) ∧
    (jsLookup body "UserID" = none →
      jsLookup (registerTokenPayload insertId body) "UserID" =
        some (Value.num insertId)) := by
  constructor
  · intro h
    simp only [jsLookup, registerTokenPayload, List.reverse_cons, List.find?_append]
    simp only [jsLookup] at h
    cases hf : List.find? (fun kv => kv.1 == k) body.reverse with
    | none => rw [hf] at h; exact absurd h (by simp)
    | some kv =>
      rw [hf] at h
      exact h
  · intro h
    simp only [jsLookup, registerTokenPayload, List.reverse_cons, List.find?_append]
    simp only [jsLookup] at h
    cases hf : List.find? (fun kv => kv.1 == "UserID") body.reverse with
    | some kv => rw [hf] at h; exact absurd h (by simp)
    | none => rfl

/-- Witness for claim C9 at a concrete registration body: the plaintext
password field of the body reappears among the token claims and the
insert id fills UserID. -/
theorem register_token_contains_whole_body_witness :
    jsLookup (registerTokenPayload 42
        [("username", .str "a"), ("password", .str "hunter2")]) "password" =
      some (.str "hunter2") ∧
    jsLookup (registerTokenPayload 42
        [("username", .str "a"), ("password", .str "hunter2")]) "UserID" =
      some (.num 42) :=
  ⟨(register_token_contains_whole_body 42
      [("username", .str "a"), ("password", .str "hunter2")] "password"
      (.str "hunter2")).1 (by decide),
   (register_token_contains_whole_body 42
      [("username", .str "a"), ("password", .str "hunter2")] "password"
      (.str "hunter2")).2 (by decide)⟩

/-- Claim C10: the INSERT INTO car statement names a makeId placeholder,
but the parameter object passed with it supplies the key make_id instead,
so the makeId placeholder binds to nothing and the client-supplied
make_id value is never bound in under that placeholder. -/
theorem car_makeId_never_bound (make_id model user_id deleted_flag : Value) :
    "makeId" ∈ carInsertPlaceholders ∧
    bindPlaceholder (carInsertParams make_id model user_id deleted_flag) "makeId" = none ∧
    bindPlaceholder (carInsertParams make_id model user_id deleted_flag) "make_id" =
      some make_id :=
  ⟨by decide, rfl, rfl⟩

end JournalBackend
